import Mathlib

/-!
Verification of the signal-detection, scoring, persistence and tool-query
logic of the github-mcp repository, as a shallow embedding in Lean.

The main sources embedded here are:
  * src/github_mcp/ingest.py       (detect_signals, ingest)
  * src/github_mcp/common.py       (SCHEMA_SQL, upsert)
  * src/github_mcp/server.py       (get_repo_overview, query_repos_by_signals)
  * src/github_mcp/user_service.py (upsert_user)
  * src/main.py                    (run_ingestion_job, /ingest route)

Python strings are modelled as Lean String, lists as List, SQLite rows as
structures, and the SQL upsert/query statements by executable functions on
lists of rows.
-/

/- ============================================================
   String helpers mirroring the Python `str` operations used by
   detect_signals: startswith, endswith, substring membership (`in`),
   and lower().
   ============================================================ -/

/-- Python `s.startswith(t)`. -/
def strStartsWith (s t : String) : Bool := t.data.isPrefixOf s.data

/-- Python `s.endswith(t)`. -/
def strEndsWith (s t : String) : Bool := t.data.isSuffixOf s.data

/-- Python `t in s` (contiguous substring membership). -/
def strContains (s t : String) : Bool := s.data.tails.any (fun u => t.data.isPrefixOf u)

/-- Python `s.lower()`, modelled per character.  All path patterns in the
source are ASCII, where `Char.toLower` agrees with Python `str.lower`. -/
def lowerStr (s : String) : String := String.mk (s.data.map Char.toLower)

/-- Python `sum(bools)` over a list of booleans. -/
def countTrue (l : List Bool) : Nat := l.count true

/-- Python `round(100 * k / n, 1)` expressed in tenths of a point, as a
natural number: the nearest integer to `1000 * k / n`.  For the fixed
denominators 9, 4, 5 used by detect_signals the exact value `1000*k/n` is
never a half-integer, so no rounding-mode tie arises and this agrees
exactly with the float computation in the source. -/
def roundTenths (k n : Nat) : Nat := (2000 * k + n) / (2 * n)

/-- `round((sum(items) / len(items)) * 100, 1)` in tenths, as computed for
each score list in detect_signals (ingest.py lines 277-289). -/
def scoreTenths (items : List Bool) : Nat := roundTenths (countTrue items) items.length

/- ============================================================
   detect_signals (src/github_mcp/ingest.py lines 101-318)

   Each boolean indicator is a top-level function of the lower-cased
   path list, translated clause by clause from the source.
   ============================================================ -/

/-- Test detection (ingest.py 108-112). -/
def hasTestsB (lower : List String) : Bool :=
  lower.any (fun p =>
    (strStartsWith p "test/" || strStartsWith p "tests/" ||
     strStartsWith p "__tests__/" || strStartsWith p "spec/") ||
    (strEndsWith p "_test.py" || strEndsWith p ".spec.ts" || strEndsWith p ".test.ts" ||
     strEndsWith p ".test.js" || strEndsWith p ".test.py" || strEndsWith p "_spec.rb" ||
     strEndsWith p ".spec.rb"))

/-- GitHub Actions detection (ingest.py 115). -/
def hasActionsB (lower : List String) : Bool :=
  lower.any (fun p => strStartsWith p ".github/workflows/")

/-- CI config detection (ingest.py 116). -/
def hasCiB (lower : List String) : Bool :=
  hasActionsB lower ||
  lower.any (fun p =>
    strStartsWith p ".circleci/" || strStartsWith p ".gitlab-ci" ||
    strStartsWith p "azure-pipelines" || strStartsWith p "jenkinsfile")

/-- The fixed lint/format config filename set (ingest.py 119-124). -/
def lintFiles : List String :=
  [".ruff.toml", "ruff.toml", "pyproject.toml", ".flake8", "setup.cfg", ".pylintrc",
   ".eslintrc", ".eslintrc.json", ".eslintrc.js", ".eslintrc.cjs", ".eslintrc.yaml",
   ".prettierrc", ".prettierrc.json", ".prettierrc.js", ".prettierrc.yaml",
   ".stylelintrc", ".editorconfig", ".clang-format"]

/-- Lint config detection (ingest.py 125): exact membership in `lintFiles`
or an `.eslintrc.js` / `.prettierrc.json` suffix. -/
def hasLintB (lower : List String) : Bool :=
  lower.any (fun p =>
    lintFiles.contains p || strEndsWith p ".eslintrc.js" || strEndsWith p ".prettierrc.json")

/-- Pre-commit detection (ingest.py 128). -/
def hasPrecommitB (lower : List String) : Bool :=
  lower.any (fun p => p == ".pre-commit-config.yaml")

/-- Dockerfile detection (ingest.py 129). -/
def hasDockerfileB (lower : List String) : Bool :=
  lower.any (fun p => strEndsWith p "dockerfile" || p == "dockerfile")

/-- Docker Compose detection (ingest.py 130). -/
def hasDockerComposeB (lower : List String) : Bool :=
  lower.any (fun p => strEndsWith p "docker-compose.yml" || strEndsWith p "docker-compose.yaml")

/-- Makefile detection (ingest.py 131). -/
def hasMakefileB (lower : List String) : Bool :=
  lower.any (fun p => p == "makefile")

/-- Code-of-conduct detection (ingest.py 134). -/
def hasCodeOfConductB (lower : List String) : Bool :=
  lower.any (fun p =>
    p == "code_of_conduct.md" || p == "code-of-conduct.md" || p == ".github/code_of_conduct.md")

/-- Contributing-guide detection (ingest.py 135). -/
def hasContributingB (lower : List String) : Bool :=
  lower.any (fun p =>
    p == "contributing.md" || p == "contributing.rst" || p == ".github/contributing.md")

/-- License detection (ingest.py 136). -/
def hasLicenseB (lower : List String) : Bool :=
  lower.any (fun p => strStartsWith p "license" || strStartsWith p "licence")

/-- Security-policy detection (ingest.py 137). -/
def hasSecurityPolicyB (lower : List String) : Bool :=
  lower.any (fun p => p == ".github/security.md" || p == "security.md" || p == "security.rst")

/-- Issue-template detection (ingest.py 138).  Note the second disjunct
tests the upper-case literal ".github/ISSUE_TEMPLATE" against the already
lower-cased path. -/
def hasIssueTemplatesB (lower : List String) : Bool :=
  lower.any (fun p =>
    strStartsWith p ".github/issue_template" || strContains p ".github/ISSUE_TEMPLATE")

/-- PR-template detection (ingest.py 139), analogous to issue templates. -/
def hasPrTemplatesB (lower : List String) : Bool :=
  lower.any (fun p =>
    strStartsWith p ".github/pull_request_template" || strContains p ".github/PULL_REQUEST_TEMPLATE")

/-- Changelog detection (ingest.py 140). -/
def hasChangelogB (lower : List String) : Bool :=
  lower.any (fun p =>
    strStartsWith p "changelog" || strStartsWith p "changes" || strStartsWith p "history")

/-- Docs-directory detection (ingest.py 141). -/
def hasDocsB (lower : List String) : Bool :=
  lower.any (fun p => strStartsWith p "docs/" || strStartsWith p "documentation/")

/-- README detection, used only inside the organization score (ingest.py 281). -/
def hasReadmeB (lower : List String) : Bool :=
  lower.any (fun p => strStartsWith p "readme")

/-- Test framework detection chain (ingest.py 250-260); `None` is rendered
as `""` at the return site (ingest.py 308). -/
def detectedTestFramework (lower : List String) : String :=
  if lower.any (fun p =>
      strEndsWith p "pytest.ini" || strEndsWith p "conftest.py" || strEndsWith p "pytest.ini")
  then "pytest"
  else if lower.any (fun p =>
      strEndsWith p "jest.config.js" || strEndsWith p "jest.config.ts" ||
      strEndsWith p "jest.config.json")
  then "jest"
  else if lower.any (fun p => strEndsWith p "vitest.config.ts" || strEndsWith p "vitest.config.js")
  then "vitest"
  else if lower.any (fun p =>
      strEndsWith p "mocha.opts" || strEndsWith p ".mocharc.json" || strEndsWith p ".mocharc.js")
  then "mocha"
  else if lower.any (fun p => strEndsWith p "spec_helper.rb" || strEndsWith p "test_helper.rb")
  then "rspec"
  else ""

/-- CI system detection chain (ingest.py 263-275); `None` is rendered as
`""` at the return site (ingest.py 309). -/
def detectedCi (lower : List String) : String :=
  if hasActionsB lower then "github_actions"
  else if lower.any (fun p => strStartsWith p ".circleci/") then "circleci"
  else if lower.any (fun p => strStartsWith p ".gitlab-ci") then "gitlab_ci"
  else if lower.any (fun p => strContains p "azure-pipelines") then "azure_pipelines"
  else if lower.any (fun p => strContains p "jenkinsfile") then "jenkins"
  else if lower.any (fun p => strContains p "travis.yml") then "travis"
  else ""

/-- The labels a single (lower-cased) path contributes to the tech-stack
set: the exclusive elif dispatch of ingest.py 145-247, one top-level
category per path plus framework sub-labels within that category. -/
def pathLabels (p : String) : List String :=
  if strEndsWith p ".py" || strEndsWith p "requirements.txt" || strEndsWith p "pyproject.toml" ||
     strEndsWith p "setup.py" || strContains p "/python" then
    "Python" ::
      (if strContains p "fastapi" then ["FastAPI"]
       else if strContains p "flask" then ["Flask"]
       else if strContains p "django" then ["Django"]
       else if strContains p "streamlit" then ["Streamlit"]
       else [])
  else if strEndsWith p ".ts" || strEndsWith p ".tsx" || strEndsWith p "tsconfig.json" then
    "TypeScript" ::
      (if strContains p "react" then ["React"]
       else if strContains p "next" then ["Next.js"]
       else if strContains p "node" then ["Node.js"]
       else [])
  else if strEndsWith p ".js" || strEndsWith p ".jsx" || strEndsWith p "package.json" then
    "JavaScript" ::
      (if strContains p "react" then ["React"]
       else if strContains p "vue" then ["Vue"]
       else if strContains p "angular" then ["Angular"]
       else if strContains p "node" then ["Node.js"]
       else [])
  else if strEndsWith p ".java" || strEndsWith p "pom.xml" || strEndsWith p "build.gradle" ||
          strEndsWith p "build.gradle.kts" then
    "Java" :: (if strContains p "spring" then ["Spring"] else [])
  else if strEndsWith p ".kt" || strEndsWith p ".kts" then ["Kotlin"]
  else if strEndsWith p ".scala" || strEndsWith p "build.sbt" then ["Scala"]
  else if strEndsWith p ".go" || strEndsWith p "go.mod" || strEndsWith p "go.sum" then ["Go"]
  else if strEndsWith p ".rs" || strEndsWith p "cargo.toml" then ["Rust"]
  else if strEndsWith p ".cpp" || strEndsWith p ".cc" || strEndsWith p ".cxx" ||
          strEndsWith p "cmakelists.txt" then ["C++"]
  else if strEndsWith p ".c" then ["C"]
  else if strEndsWith p ".cs" || strEndsWith p ".csproj" then
    "C#" :: (if strContains p "dotnet" then [".NET"] else [])
  else if strEndsWith p ".php" || strEndsWith p "composer.json" then
    "PHP" :: (if strContains p "laravel" then ["Laravel"] else [])
  else if strEndsWith p ".swift" || strEndsWith p "podfile" then ["Swift"]
  else if strEndsWith p ".sql" || strContains p "/migrations/" || strContains p "/schema/" then
    ["SQL"]
  else if strContains p "dbt_project.yml" then ["dbt"]
  else if strEndsWith p ".pbix" || strEndsWith p ".pbit" then ["Power BI"]
  else if strEndsWith p ".twb" || strEndsWith p ".twbx" || strEndsWith p ".hyper" ||
          strEndsWith p ".tds" || strEndsWith p ".tdsx" then ["Tableau"]
  else if strEndsWith p ".tf" then ["Terraform"]
  else if strContains p "cloudformation" || (strEndsWith p ".yaml" && strContains p "aws") then
    ["CloudFormation"]
  else if strContains p "bicep" then ["Azure Bicep"]
  else if strContains p "cdk" then ["AWS CDK"]
  else if strContains p "langgraph" then ["LangGraph"]
  else if strContains p "langchain" then ["LangChain"]
  else if strContains p "openai" then ["OpenAI"]
  else if strContains p "dockerfile" then ["Docker"]
  else if strContains p "docker-compose" then ["Docker Compose"]
  else if strContains p "serverless.yml" then ["Serverless"]
  else if strContains p ".github/workflows" then ["GitHub Actions"]
  else []

/-- Add each label to the accumulated label list unless already present
(Python `set.add`, with insertion order kept; the order is irrelevant
because the result is sorted before joining). -/
def addLabels : List String → List String → List String
  | acc, [] => acc
  | acc, l :: ls => addLabels (if l ∈ acc then acc else acc ++ [l]) ls

/-- The `tech_stack` set accumulated over all lower-cased paths
(ingest.py 144-247). -/
def techLabelsAux : List String → List String → List String
  | acc, [] => acc
  | acc, p :: ps => techLabelsAux (addLabels acc (pathLabels p)) ps

def techLabels (lower : List String) : List String := techLabelsAux [] lower

/-- Lexicographic comparison on code points, as Python `sorted` orders
strings. -/
def ltChars : List Char → List Char → Bool
  | [], [] => false
  | [], _ :: _ => true
  | _ :: _, [] => false
  | a :: as, b :: bs =>
    if a.toNat < b.toNat then true
    else if b.toNat < a.toNat then false
    else ltChars as bs

def ltStr (a b : String) : Bool := ltChars a.data b.data

def insertStr (x : String) : List String → List String
  | [] => [x]
  | y :: ys => if ltStr x y then x :: y :: ys else y :: insertStr x ys

/-- Python `sorted` on a list of strings (insertion sort; stable, and the
inputs here are distinct labels). -/
def sortStr (l : List String) : List String := l.foldr insertStr []

/-- Python `", ".join(labels)`. -/
def joinComma : List String → String
  | [] => ""
  | [x] => x
  | x :: y :: ys => x ++ ", " ++ joinComma (y :: ys)

/-- `", ".join(sorted(tech_stack)) if tech_stack else ""` (ingest.py 313);
the empty join already yields `""`. -/
def techStackStr (lower : List String) : String := joinComma (sortStr (techLabels lower))

/-- The organization score item list (ingest.py 278-282). -/
def orgItems (lower : List String) : List Bool :=
  [hasCodeOfConductB lower, hasContributingB lower, hasLicenseB lower,
   hasSecurityPolicyB lower, hasIssueTemplatesB lower, hasPrTemplatesB lower,
   hasChangelogB lower, hasDocsB lower, hasReadmeB lower]

/-- The coding-standards score item list (ingest.py 285). -/
def codingItems (lower : List String) : List Bool :=
  [hasTestsB lower, hasLintB lower, hasPrecommitB lower, hasCiB lower]

/-- The automation score item list (ingest.py 288). -/
def automationItems (lower : List String) : List Bool :=
  [hasActionsB lower, hasCiB lower, hasPrecommitB lower, hasDockerfileB lower,
   hasDockerComposeB lower]

/-- The record returned by detect_signals (ingest.py 291-318).  Boolean
indicators are Bool here (the source returns them as ints 0/1); the three
scores are kept in exact tenths of a point, so a source score of `22.2`
is `222` here. -/
structure Signals where
  has_tests : Bool
  has_github_actions : Bool
  has_ci_config : Bool
  has_lint_config : Bool
  has_precommit : Bool
  has_dockerfile : Bool
  has_docker_compose : Bool
  has_makefile : Bool
  has_code_of_conduct : Bool
  has_contributing : Bool
  has_license : Bool
  has_security_policy : Bool
  has_issue_templates : Bool
  has_pr_templates : Bool
  has_changelog : Bool
  has_docs : Bool
  detected_test_framework : String
  detected_ci : String
  organization_score_tenths : Nat
  coding_standards_score_tenths : Nat
  automation_score_tenths : Nat
  tech_stack : String
  total_paths : Nat
  sample_paths : List String
  deriving Repr, DecidableEq

/-- `lower = [p.lower() for p in paths]` (ingest.py 102). -/
def detectLower (paths : List String) : List String := paths.map lowerStr

/-- Shallow embedding of detect_signals (src/github_mcp/ingest.py 101-318). -/
def detect_signals (paths : List String) : Signals :=
  let lower := detectLower paths
  { has_tests := hasTestsB lower
    has_github_actions := hasActionsB lower
    has_ci_config := hasCiB lower
    has_lint_config := hasLintB lower
    has_precommit := hasPrecommitB lower
    has_dockerfile := hasDockerfileB lower
    has_docker_compose := hasDockerComposeB lower
    has_makefile := hasMakefileB lower
    has_code_of_conduct := hasCodeOfConductB lower
    has_contributing := hasContributingB lower
    has_license := hasLicenseB lower
    has_security_policy := hasSecurityPolicyB lower
    has_issue_templates := hasIssueTemplatesB lower
    has_pr_templates := hasPrTemplatesB lower
    has_changelog := hasChangelogB lower
    has_docs := hasDocsB lower
    detected_test_framework := detectedTestFramework lower
    detected_ci := detectedCi lower
    organization_score_tenths := scoreTenths (orgItems lower)
    coding_standards_score_tenths := scoreTenths (codingItems lower)
    automation_score_tenths := scoreTenths (automationItems lower)
    tech_stack := techStackStr lower
    total_paths := paths.length
    sample_paths := paths.take 50 }

/-- Spec-side rule for lint detection: some path, lower-cased, is a
member of the fixed filename set, or carries one of the two suffixes the
source additionally accepts. -/
def lintSpecRule (paths : List String) : Prop :=
  ∃ p ∈ paths, lowerStr p ∈ lintFiles ∨
    strEndsWith (lowerStr p) ".eslintrc.js" = true ∨
    strEndsWith (lowerStr p) ".prettierrc.json" = true

/-- Spec-side rule for issue-template detection restricted to the only
branch that can fire on lower-cased input. -/
def issueTemplatesSpecRule (paths : List String) : Prop :=
  ∃ p ∈ paths, strStartsWith (lowerStr p) ".github/issue_template" = true

/-- The components of two detect_signals results that duplicate paths
must not change: all 16 boolean indicators, both categorical fields, the
three scores and the tech stack (everything except total_paths and
sample_paths). -/
def sameDetection (a b : Signals) : Prop :=
  a.has_tests = b.has_tests ∧
  a.has_github_actions = b.has_github_actions ∧
  a.has_ci_config = b.has_ci_config ∧
  a.has_lint_config = b.has_lint_config ∧
  a.has_precommit = b.has_precommit ∧
  a.has_dockerfile = b.has_dockerfile ∧
  a.has_docker_compose = b.has_docker_compose ∧
  a.has_makefile = b.has_makefile ∧
  a.has_code_of_conduct = b.has_code_of_conduct ∧
  a.has_contributing = b.has_contributing ∧
  a.has_license = b.has_license ∧
  a.has_security_policy = b.has_security_policy ∧
  a.has_issue_templates = b.has_issue_templates ∧
  a.has_pr_templates = b.has_pr_templates ∧
  a.has_changelog = b.has_changelog ∧
  a.has_docs = b.has_docs ∧
  a.detected_test_framework = b.detected_test_framework ∧
  a.detected_ci = b.detected_ci ∧
  a.organization_score_tenths = b.organization_score_tenths ∧
  a.coding_standards_score_tenths = b.coding_standards_score_tenths ∧
  a.automation_score_tenths = b.automation_score_tenths ∧
  a.tech_stack = b.tech_stack

/- ============================================================
   Persistence layer: rows of the repos / repo_signals / commits /
   users tables, and the upsert statements issued against them.
   ============================================================ -/

/-- A row of the repos table, with the columns the repos INSERT of
ingest (ingest.py 381-413) writes.  All values GitHub delivers as
timestamps/JSON are already serialized to strings by the orchestrator. -/
structure RepoRow where
  user : String
  repo : String
  default_branch : String
  description : String
  language : String
  html_url : String
  readme_text : String
  last_ingested_at : String
  pushed_at : String
  created_at : String
  updated_at : String
  stargazers_count : Nat
  forks_count : Nat
  watchers_count : Nat
  open_issues_count : Nat
  size : Nat
  topics : String
  license_name : String
  is_archived : Nat
  is_fork : Nat
  deriving Repr, DecidableEq

/-- A row of the repo_signals table (scores in tenths, booleans as the
stored 0/1 integers). -/
structure SignalRow where
  user : String
  repo : String
  has_tests : Nat
  has_github_actions : Nat
  has_ci_config : Nat
  has_lint_config : Nat
  has_precommit : Nat
  has_dockerfile : Nat
  has_docker_compose : Nat
  has_makefile : Nat
  detected_test_framework : String
  detected_ci : String
  has_code_of_conduct : Nat
  has_contributing : Nat
  has_license : Nat
  has_security_policy : Nat
  has_issue_templates : Nat
  has_pr_templates : Nat
  has_changelog : Nat
  has_docs : Nat
  organization_score_tenths : Nat
  coding_standards_score_tenths : Nat
  automation_score_tenths : Nat
  tech_stack : String
  signals_json : String
  deriving Repr, DecidableEq

/-- A row of the commits table. -/
structure CommitRow where
  user : String
  repo : String
  sha : String
  authored_at : String
  message : String
  author_name : String
  author_login : String
  files_changed : Nat
  additions : Nat
  deletions : Nat
  deriving Repr, DecidableEq

/-- A row of the users table (users.status, users.error as in SCHEMA_SQL). -/
structure UserRow where
  user_name : String
  last_ingested_at : String
  status : String
  repo_count : Nat
  error : Option String
  deriving Repr, DecidableEq

/-- The repository upsert issued by ingest (ingest.py 381-413):
`INSERT INTO repos(...) VALUES (...) ON CONFLICT(user, repo) DO UPDATE SET`
with every non-key column set from excluded.  On a key conflict the
conflicting row is replaced field-by-field with the new record (every
non-key column is listed in the SET clause, so the whole row becomes the
new record); otherwise the new record is appended. -/
def upsert_repository (rows : List RepoRow) (r : RepoRow) : List RepoRow :=
  if rows.any (fun o => o.user == r.user && o.repo == r.repo) then
    rows.map (fun o => if o.user == r.user && o.repo == r.repo then r else o)
  else
    rows ++ [r]

/-- Number of rows holding the natural key (u, rp). -/
def countRepoKey (rows : List RepoRow) (u rp : String) : Nat :=
  rows.countP (fun o => o.user == u && o.repo == rp)

/-- The PRIMARY KEY (user, repo) invariant of the repos table: no two rows
share a key. -/
def repoKeyUniq : List RepoRow → Bool
  | [] => true
  | o :: rest =>
    !(rest.any (fun o2 => o2.user == o.user && o2.repo == o.repo)) && repoKeyUniq rest

/- ============================================================
   Tool-exposure queries (src/github_mcp/server.py)
   ============================================================ -/

/-- The store a server tool reads: the four tables. -/
structure Store where
  repos : List RepoRow
  repo_signals : List SignalRow
  commits : List CommitRow
  users : List UserRow
  deriving Repr

def emptyStore : Store := { repos := [], repo_signals := [], commits := [], users := [] }

/-- `SELECT * FROM repos WHERE user=? AND repo=?` point lookup (server.py 134). -/
def findRepo (rows : List RepoRow) (user repo : String) : Option RepoRow :=
  rows.find? (fun o => o.user == user && o.repo == repo)

/-- `SELECT * FROM repo_signals WHERE user=? AND repo=?` (server.py 138). -/
def findSignals (rows : List SignalRow) (user repo : String) : Option SignalRow :=
  rows.find? (fun o => o.user == user && o.repo == repo)

/-- `SELECT COUNT(*) FROM commits WHERE user=? AND repo=?` (server.py 142-146). -/
def commitCount (rows : List CommitRow) (user repo : String) : Nat :=
  (rows.filter (fun c => c.user == user && c.repo == repo)).length

/-- The nested "achievements" object of the overview (server.py 160-166). -/
structure OverviewAchievements where
  stars : Nat
  forks : Nat
  watchers : Nat
  open_issues : Nat
  commits : Nat
  deriving Repr, DecidableEq

/-- The nested "metadata" object (server.py 167-173). -/
structure OverviewMetadata where
  size : Nat
  topics : String
  license : Option String
  is_archived : Bool
  is_fork : Bool
  deriving Repr, DecidableEq

/-- The nested "automation" object (server.py 174-183). -/
structure OverviewAutomation where
  has_github_actions : Bool
  has_ci_config : Bool
  has_precommit : Bool
  has_dockerfile : Bool
  has_docker_compose : Bool
  has_makefile : Bool
  detected_ci : Option String
  automation_score_tenths : Nat
  deriving Repr, DecidableEq

/-- The nested "coding_standards" object (server.py 184-191). -/
structure OverviewCodingStandards where
  has_tests : Bool
  has_lint_config : Bool
  has_precommit : Bool
  has_ci_config : Bool
  detected_test_framework : Option String
  coding_standards_score_tenths : Nat
  deriving Repr, DecidableEq

/-- The nested "organization" object (server.py 192-202). -/
structure OverviewOrganization where
  has_code_of_conduct : Bool
  has_contributing : Bool
  has_license : Bool
  has_security_policy : Bool
  has_issue_templates : Bool
  has_pr_templates : Bool
  has_changelog : Bool
  has_docs : Bool
  organization_score_tenths : Nat
  deriving Repr, DecidableEq

/-- The nested "signals" object (server.py 204-212). -/
structure OverviewSignals where
  tech_stack : String
  has_ci_config : Bool
  has_tests : Bool
  has_dockerfile : Bool
  has_precommit : Bool
  detected_ci : Option String
  detected_test_framework : Option String
  deriving Repr, DecidableEq

/-- The overview mapping built by get_repo_overview (server.py 149-213). -/
structure Overview where
  repo : String
  description : String
  language : String
  html_url : String
  default_branch : String
  created_at : String
  updated_at : String
  pushed_at : String
  last_ingested_at : String
  readme_text : String
  achievements : OverviewAchievements
  metadata : OverviewMetadata
  automation : OverviewAutomation
  coding_standards : OverviewCodingStandards
  organization : OverviewOrganization
  signals : OverviewSignals
  deriving Repr, DecidableEq

/-- A tool that returns either a mapping with an "error" key or a result. -/
inductive ToolResult (α : Type) where
  | err (msg : String)
  | ok (res : α)
  deriving Repr, DecidableEq

/-- Python `s or None` on a string field: empty becomes None. -/
def strOrNone (s : String) : Option String := if s = "" then none else some s

/-- `bool(int(x))` on a stored 0/1 column. -/
def storedBool (n : Nat) : Bool := n != 0

/-- The defaulted signals row used when `fetchone(...) or {}` finds no
repo_signals row (server.py 138): every `s.get(...)` then yields its
default — 0 for ints/scores, `""` for strings. -/
def defaultSignalRow (user repo : String) : SignalRow :=
  { user := user, repo := repo, has_tests := 0, has_github_actions := 0,
    has_ci_config := 0, has_lint_config := 0, has_precommit := 0, has_dockerfile := 0,
    has_docker_compose := 0, has_makefile := 0, detected_test_framework := "",
    detected_ci := "", has_code_of_conduct := 0, has_contributing := 0, has_license := 0,
    has_security_policy := 0, has_issue_templates := 0, has_pr_templates := 0,
    has_changelog := 0, has_docs := 0, organization_score_tenths := 0,
    coding_standards_score_tenths := 0, automation_score_tenths := 0,
    tech_stack := "", signals_json := "" }

/-- get_repo_overview (src/github_mcp/server.py 124-215): a missing repos
row yields the explicit error object; otherwise the overview is assembled
from the repos row, the (possibly defaulted) repo_signals row and the
commit count. -/
def get_repo_overview (store : Store) (user repo : String) : ToolResult Overview :=
  match findRepo store.repos user repo with
  | none =>
    ToolResult.err ("Repo not found in MCP store: " ++ user ++ "/" ++ repo ++
      ". Run ingestion first.")
  | some r =>
    let s := (findSignals store.repo_signals user repo).getD (defaultSignalRow user repo)
    ToolResult.ok
      { repo := repo
        description := r.description
        language := r.language
        html_url := r.html_url
        default_branch := r.default_branch
        created_at := r.created_at
        updated_at := r.updated_at
        pushed_at := r.pushed_at
        last_ingested_at := r.last_ingested_at
        readme_text := r.readme_text
        achievements :=
          { stars := r.stargazers_count, forks := r.forks_count,
            watchers := r.watchers_count, open_issues := r.open_issues_count,
            commits := commitCount store.commits user repo }
        metadata :=
          { size := r.size, topics := r.topics, license := strOrNone r.license_name,
            is_archived := storedBool r.is_archived, is_fork := storedBool r.is_fork }
        automation :=
          { has_github_actions := storedBool s.has_github_actions,
            has_ci_config := storedBool s.has_ci_config,
            has_precommit := storedBool s.has_precommit,
            has_dockerfile := storedBool s.has_dockerfile,
            has_docker_compose := storedBool s.has_docker_compose,
            has_makefile := storedBool s.has_makefile,
            detected_ci := strOrNone s.detected_ci,
            automation_score_tenths := s.automation_score_tenths }
        coding_standards :=
          { has_tests := storedBool s.has_tests,
            has_lint_config := storedBool s.has_lint_config,
            has_precommit := storedBool s.has_precommit,
            has_ci_config := storedBool s.has_ci_config,
            detected_test_framework := strOrNone s.detected_test_framework,
            coding_standards_score_tenths := s.coding_standards_score_tenths }
        organization :=
          { has_code_of_conduct := storedBool s.has_code_of_conduct,
            has_contributing := storedBool s.has_contributing,
            has_license := storedBool s.has_license,
            has_security_policy := storedBool s.has_security_policy,
            has_issue_templates := storedBool s.has_issue_templates,
            has_pr_templates := storedBool s.has_pr_templates,
            has_changelog := storedBool s.has_changelog,
            has_docs := storedBool s.has_docs,
            organization_score_tenths := s.organization_score_tenths }
        signals :=
          { tech_stack := s.tech_stack,
            has_ci_config := storedBool s.has_ci_config,
            has_tests := storedBool s.has_tests,
            has_dockerfile := storedBool s.has_dockerfile,
            has_precommit := storedBool s.has_precommit,
            detected_ci := strOrNone s.detected_ci,
            detected_test_framework := strOrNone s.detected_test_framework } }

/-- An output row of query_repos_by_signals (server.py 357-369): the
selected columns with the 0/1 flags converted to booleans and the
"name" alias added. -/
structure QueryRow where
  repo : String
  tech_stack : String
  has_ci_config : Bool
  has_tests : Bool
  has_dockerfile : Bool
  has_precommit : Bool
  detected_ci : String
  detected_test_framework : String
  automation_score_tenths : Nat
  coding_standards_score_tenths : Nat
  organization_score_tenths : Nat
  name : String
  deriving Repr, DecidableEq

/-- The WHERE clause accumulated by query_repos_by_signals
(server.py 295-325).  Python truthiness: a `None` or empty-string filter
adds no condition; a `None` boolean adds no condition. -/
def querySignalsPred (user : String) (tech_stack : Option String)
    (ci : Option Bool) (tests : Option Bool) (dockerfile : Option Bool)
    (precommit : Option Bool) (det_ci : Option String) (det_tf : Option String)
    (s : SignalRow) : Bool :=
  s.user == user &&
  (match tech_stack with
   | none => true
   | some t => if t = "" then true else strContains s.tech_stack t) &&
  (match ci with
   | none => true
   | some b => s.has_ci_config == (if b then 1 else 0)) &&
  (match tests with
   | none => true
   | some b => s.has_tests == (if b then 1 else 0)) &&
  (match dockerfile with
   | none => true
   | some b => s.has_dockerfile == (if b then 1 else 0)) &&
  (match precommit with
   | none => true
   | some b => s.has_precommit == (if b then 1 else 0)) &&
  (match det_ci with
   | none => true
   | some d => if d = "" then true else s.detected_ci == d) &&
  (match det_tf with
   | none => true
   | some d => if d = "" then true else s.detected_test_framework == d)

/-- The ORDER BY of query_repos_by_signals (server.py 345-350):
has_ci_config DESC, has_tests DESC, automation_score DESC,
coding_standards_score DESC, repo ASC. -/
def queryRankLe (a b : SignalRow) : Bool :=
  if a.has_ci_config != b.has_ci_config then b.has_ci_config < a.has_ci_config
  else if a.has_tests != b.has_tests then b.has_tests < a.has_tests
  else if a.automation_score_tenths != b.automation_score_tenths then
    b.automation_score_tenths < a.automation_score_tenths
  else if a.coding_standards_score_tenths != b.coding_standards_score_tenths then
    b.coding_standards_score_tenths < a.coding_standards_score_tenths
  else !(ltStr b.repo a.repo)

def insertRanked (x : SignalRow) : List SignalRow → List SignalRow
  | [] => [x]
  | y :: ys => if queryRankLe x y then x :: y :: ys else y :: insertRanked x ys

def sortRanked (l : List SignalRow) : List SignalRow := l.foldr insertRanked []

/-- Row normalization of query_repos_by_signals (server.py 357-369). -/
def toQueryRow (s : SignalRow) : QueryRow :=
  { repo := s.repo, tech_stack := s.tech_stack,
    has_ci_config := storedBool s.has_ci_config,
    has_tests := storedBool s.has_tests,
    has_dockerfile := storedBool s.has_dockerfile,
    has_precommit := storedBool s.has_precommit,
    detected_ci := s.detected_ci,
    detected_test_framework := s.detected_test_framework,
    automation_score_tenths := s.automation_score_tenths,
    coding_standards_score_tenths := s.coding_standards_score_tenths,
    organization_score_tenths := s.organization_score_tenths,
    name := s.repo }

/-- query_repos_by_signals (src/github_mcp/server.py 274-371): filter
repo_signals by the accumulated conditions, apply the ORDER BY, LIMIT,
and normalize.  The result is always a list of rows — there is no
error-object branch in the source. -/
def query_repos_by_signals (store : Store) (user : String)
    (tech_stack : Option String) (ci : Option Bool) (tests : Option Bool)
    (dockerfile : Option Bool) (precommit : Option Bool)
    (det_ci : Option String) (det_tf : Option String) (lim : Nat) : List QueryRow :=
  ((sortRanked (store.repo_signals.filter
      (querySignalsPred user tech_stack ci tests dockerfile precommit det_ci det_tf))).take
    lim).map toQueryRow

/- ============================================================
   Schema vs. INSERT column lists (src/github_mcp/common.py SCHEMA_SQL
   lines 123-210 vs. the INSERT statements of src/github_mcp/ingest.py)
   ============================================================ -/

/-- Columns of the repos table in SCHEMA_SQL (common.py 124-146). -/
def reposTableCols : List String :=
  ["user_name", "repo", "default_branch", "description", "language", "html_url",
   "readme_text", "last_ingested_at", "pushed_at", "created_at", "updated_at",
   "stargazers_count", "forks_count", "watchers_count", "open_issues_count",
   "size", "topics", "license_name", "is_archived", "is_fork"]

/-- Columns of the commits table in SCHEMA_SQL (common.py 148-160). -/
def commitsTableCols : List String :=
  ["user_name", "repo", "sha", "authored_at", "message", "author_name",
   "author_login", "files_changed", "additions", "deletions"]

/-- Columns of the repo_signals table in SCHEMA_SQL (common.py 162-189). -/
def repoSignalsTableCols : List String :=
  ["user_name", "repo", "has_tests", "has_github_actions", "has_ci_config",
   "has_lint_config", "has_precommit", "has_dockerfile", "has_docker_compose",
   "has_makefile", "detected_test_framework", "detected_ci", "has_code_of_conduct",
   "has_contributing", "has_license", "has_security_policy", "has_issue_templates",
   "has_pr_templates", "has_changelog", "has_docs", "organization_score",
   "coding_standards_score", "automation_score", "tech_stack", "signals_json"]

/-- Column list of the repos INSERT issued by ingest (ingest.py 384-387). -/
def reposInsertCols : List String :=
  ["user", "repo", "default_branch", "description", "language", "html_url",
   "readme_text", "last_ingested_at", "pushed_at", "created_at", "updated_at",
   "stargazers_count", "forks_count", "watchers_count", "open_issues_count",
   "size", "topics", "license_name", "is_archived", "is_fork"]

/-- Column list of the repo_signals INSERT issued by ingest (ingest.py 422-428). -/
def repoSignalsInsertCols : List String :=
  ["user", "repo", "has_tests", "has_github_actions", "has_ci_config",
   "has_lint_config", "has_precommit", "has_dockerfile", "has_docker_compose",
   "has_makefile", "detected_test_framework", "detected_ci", "has_code_of_conduct",
   "has_contributing", "has_license", "has_security_policy", "has_issue_templates",
   "has_pr_templates", "has_changelog", "has_docs", "organization_score",
   "coding_standards_score", "automation_score", "tech_stack", "signals_json"]

/-- Column list of the commits INSERT issued by ingest (ingest.py 489-492). -/
def commitsInsertCols : List String :=
  ["user", "repo", "sha", "authored_at", "message", "author_name", "author_login",
   "files_changed", "additions", "deletions", "diff_summary"]

/-- SQLite column-name validation of an INSERT: naming a column absent
from the table raises "table has no column named X" before any row is
written. -/
def checkInsertCols (tableCols cols : List String) : Except String Unit :=
  match cols.find? (fun c => !(tableCols.contains c)) with
  | some c => Except.error ("table has no column named " ++ c)
  | none => Except.ok ()

/- ============================================================
   User-status writes of the ingestion flow
   (src/github_mcp/ingest.py ingest, src/main.py run_ingestion_job
   and the /ingest route, src/github_mcp/user_service.py upsert_user)
   ============================================================ -/

/-- The sequence of users.status values that ingest
(src/github_mcp/ingest.py 353-508) writes during one run: the function
body contains no call to upsert_user (or any other users-table write),
so the sequence is empty. -/
def ingestStatusWrites : List String := []

/-- run_ingestion_job (src/main.py 95-144): it runs ingest and, only when
ingest raises, writes status "failed" from the surrounding except block.
On a successful ingest it performs no status write of its own. -/
def runIngestionJobStatusWrites (ingestRaises : Bool) : List String :=
  ingestStatusWrites ++ (if ingestRaises then ["failed"] else [])

/-- The status values written over one POST /ingest run (src/main.py
150-175 then the background job): the route writes "pending" before
queueing run_ingestion_job. -/
def ingestEndpointStatusTrajectory (ingestRaises : Bool) : List String :=
  "pending" :: runIngestionJobStatusWrites ingestRaises

/- ============================================================
   Concrete records used to instantiate the persistence and query
   theorems
   ============================================================ -/

/-- A concrete Repository record (first write). -/
def exampleRepoV1 : RepoRow :=
  { user := "alice", repo := "proj", default_branch := "main", description := "old",
    language := "Python", html_url := "https://example.test/alice/proj",
    readme_text := "old readme", last_ingested_at := "2026-01-01T00:00:00+00:00",
    pushed_at := "2026-01-01T00:00:00Z", created_at := "2025-01-01T00:00:00Z",
    updated_at := "2026-01-01T00:00:00Z", stargazers_count := 1, forks_count := 0,
    watchers_count := 1, open_issues_count := 2, size := 10, topics := "",
    license_name := "MIT", is_archived := 0, is_fork := 0 }

/-- The same (user, repo) natural key with every non-key attribute changed. -/
def exampleRepoV2 : RepoRow :=
  { user := "alice", repo := "proj", default_branch := "dev", description := "new",
    language := "Go", html_url := "https://example.test/alice/proj2",
    readme_text := "new readme", last_ingested_at := "2026-02-02T00:00:00+00:00",
    pushed_at := "2026-02-02T00:00:00Z", created_at := "2025-06-01T00:00:00Z",
    updated_at := "2026-02-02T00:00:00Z", stargazers_count := 5, forks_count := 3,
    watchers_count := 4, open_issues_count := 0, size := 20, topics := "[\x22go\x22]",
    license_name := "Apache-2.0", is_archived := 1, is_fork := 1 }

/-- A store where user "alice" has been ingested with one repo whose
signals row has has_tests = 0: a query for has_tests = true matches zero
rows even though the user exists. -/
def storeAliceNoTests : Store :=
  { repos := [exampleRepoV1],
    repo_signals :=
      [{ user := "alice", repo := "proj", has_tests := 0, has_github_actions := 0,
         has_ci_config := 0, has_lint_config := 0, has_precommit := 0,
         has_dockerfile := 0, has_docker_compose := 0, has_makefile := 0,
         detected_test_framework := "", detected_ci := "", has_code_of_conduct := 0,
         has_contributing := 0, has_license := 1, has_security_policy := 0,
         has_issue_templates := 0, has_pr_templates := 0, has_changelog := 0,
         has_docs := 0, organization_score_tenths := 111,
         coding_standards_score_tenths := 0, automation_score_tenths := 0,
         tech_stack := "Python", signals_json := "" }],
    commits := [], users := [] }

/- ============================================================
   Helper lemmas
   ============================================================ -/

/-- Appending an element already present does not change `List.any`. -/
theorem any_append_self {α : Type} (l : List α) (x : α) (hx : x ∈ l) (f : α → Bool) :
    (l ++ [x]).any f = l.any f := by
  rw [List.any_append]
  cases hfx : f x
  · simp [hfx]
  · simp [List.any_eq_true.mpr ⟨x, hx, hfx⟩]

theorem hasTestsB_dup (l : List String) (x : String) (hx : x ∈ l) :
    hasTestsB (l ++ [x]) = hasTestsB l := by
  unfold hasTestsB; exact any_append_self l x hx _

theorem hasActionsB_dup (l : List String) (x : String) (hx : x ∈ l) :
    hasActionsB (l ++ [x]) = hasActionsB l := by
  unfold hasActionsB; exact any_append_self l x hx _

theorem hasCiB_dup (l : List String) (x : String) (hx : x ∈ l) :
    hasCiB (l ++ [x]) = hasCiB l := by
  simp only [hasCiB, hasActionsB_dup l x hx, any_append_self l x hx]

theorem hasLintB_dup (l : List String) (x : String) (hx : x ∈ l) :
    hasLintB (l ++ [x]) = hasLintB l := by
  unfold hasLintB; exact any_append_self l x hx _

theorem hasPrecommitB_dup (l : List String) (x : String) (hx : x ∈ l) :
    hasPrecommitB (l ++ [x]) = hasPrecommitB l := by
  unfold hasPrecommitB; exact any_append_self l x hx _

theorem hasDockerfileB_dup (l : List String) (x : String) (hx : x ∈ l) :
    hasDockerfileB (l ++ [x]) = hasDockerfileB l := by
  unfold hasDockerfileB; exact any_append_self l x hx _

theorem hasDockerComposeB_dup (l : List String) (x : String) (hx : x ∈ l) :
    hasDockerComposeB (l ++ [x]) = hasDockerComposeB l := by
  unfold hasDockerComposeB; exact any_append_self l x hx _

theorem hasMakefileB_dup (l : List String) (x : String) (hx : x ∈ l) :
    hasMakefileB (l ++ [x]) = hasMakefileB l := by
  unfold hasMakefileB; exact any_append_self l x hx _

theorem hasCodeOfConductB_dup (l : List String) (x : String) (hx : x ∈ l) :
    hasCodeOfConductB (l ++ [x]) = hasCodeOfConductB l := by
  unfold hasCodeOfConductB; exact any_append_self l x hx _

theorem hasContributingB_dup (l : List String) (x : String) (hx : x ∈ l) :
    hasContributingB (l ++ [x]) = hasContributingB l := by
  unfold hasContributingB; exact any_append_self l x hx _

theorem hasLicenseB_dup (l : List String) (x : String) (hx : x ∈ l) :
    hasLicenseB (l ++ [x]) = hasLicenseB l := by
  unfold hasLicenseB; exact any_append_self l x hx _

theorem hasSecurityPolicyB_dup (l : List String) (x : String) (hx : x ∈ l) :
    hasSecurityPolicyB (l ++ [x]) = hasSecurityPolicyB l := by
  unfold hasSecurityPolicyB; exact any_append_self l x hx _

theorem hasIssueTemplatesB_dup (l : List String) (x : String) (hx : x ∈ l) :
    hasIssueTemplatesB (l ++ [x]) = hasIssueTemplatesB l := by
  unfold hasIssueTemplatesB; exact any_append_self l x hx _

theorem hasPrTemplatesB_dup (l : List String) (x : String) (hx : x ∈ l) :
    hasPrTemplatesB (l ++ [x]) = hasPrTemplatesB l := by
  unfold hasPrTemplatesB; exact any_append_self l x hx _

theorem hasChangelogB_dup (l : List String) (x : String) (hx : x ∈ l) :
    hasChangelogB (l ++ [x]) = hasChangelogB l := by
  unfold hasChangelogB; exact any_append_self l x hx _

theorem hasDocsB_dup (l : List String) (x : String) (hx : x ∈ l) :
    hasDocsB (l ++ [x]) = hasDocsB l := by
  unfold hasDocsB; exact any_append_self l x hx _

theorem hasReadmeB_dup (l : List String) (x : String) (hx : x ∈ l) :
    hasReadmeB (l ++ [x]) = hasReadmeB l := by
  unfold hasReadmeB; exact any_append_self l x hx _

theorem detectedTestFramework_dup (l : List String) (x : String) (hx : x ∈ l) :
    detectedTestFramework (l ++ [x]) = detectedTestFramework l := by
  simp only [detectedTestFramework, any_append_self l x hx]

theorem detectedCi_dup (l : List String) (x : String) (hx : x ∈ l) :
    detectedCi (l ++ [x]) = detectedCi l := by
  simp only [detectedCi, hasActionsB_dup l x hx, any_append_self l x hx]

theorem techLabelsAux_append_single (l : List String) (x : String) :
    ∀ acc, techLabelsAux acc (l ++ [x]) = addLabels (techLabelsAux acc l) (pathLabels x) := by
  induction l with
  | nil => intro acc; simp [techLabelsAux]
  | cons p ps ih =>
    intro acc
    simp only [List.cons_append, techLabelsAux]
    exact ih _

theorem mem_addLabels_left (y : String) :
    ∀ (ls acc : List String), y ∈ acc → y ∈ addLabels acc ls := by
  intro ls
  induction ls with
  | nil => intro acc h; simpa [addLabels] using h
  | cons l ls ih =>
    intro acc h
    simp only [addLabels]
    apply ih
    split
    · exact h
    · exact List.mem_append_left _ h

theorem mem_addLabels_right (y : String) :
    ∀ (ls acc : List String), y ∈ ls → y ∈ addLabels acc ls := by
  intro ls
  induction ls with
  | nil => intro acc h; cases h
  | cons l ls ih =>
    intro acc h
    rcases List.mem_cons.mp h with h1 | h2
    · subst h1
      simp only [addLabels]
      apply mem_addLabels_left
      by_cases hy : y ∈ acc
      · rw [if_pos hy]; exact hy
      · rw [if_neg hy]; exact List.mem_append_right _ (List.mem_singleton.mpr rfl)
    · simp only [addLabels]; exact ih _ h2

theorem addLabels_of_subset :
    ∀ (ls acc : List String), (∀ y ∈ ls, y ∈ acc) → addLabels acc ls = acc := by
  intro ls
  induction ls with
  | nil => intro acc _; rfl
  | cons l ls ih =>
    intro acc h
    have hl : l ∈ acc := h l (List.mem_cons_self l ls)
    simp only [addLabels, if_pos hl]
    exact ih acc (fun y hy => h y (List.mem_cons_of_mem _ hy))

theorem mem_techLabelsAux_left (y : String) :
    ∀ (l acc : List String), y ∈ acc → y ∈ techLabelsAux acc l := by
  intro l
  induction l with
  | nil => intro acc h; simpa [techLabelsAux] using h
  | cons p ps ih =>
    intro acc h
    simp only [techLabelsAux]
    exact ih _ (mem_addLabels_left y _ _ h)

theorem mem_techLabelsAux_ofPath (y p : String) (hy : y ∈ pathLabels p) :
    ∀ (l acc : List String), p ∈ l → y ∈ techLabelsAux acc l := by
  intro l
  induction l with
  | nil => intro acc h; cases h
  | cons q qs ih =>
    intro acc h
    rcases List.mem_cons.mp h with h1 | h2
    · subst h1
      simp only [techLabelsAux]
      exact mem_techLabelsAux_left y _ _ (mem_addLabels_right y _ _ hy)
    · simp only [techLabelsAux]; exact ih _ h2

theorem techLabels_dup (l : List String) (x : String) (hx : x ∈ l) :
    techLabels (l ++ [x]) = techLabels l := by
  rw [techLabels, techLabels, techLabelsAux_append_single]
  exact addLabels_of_subset _ _ (fun y hy => mem_techLabelsAux_ofPath y x hy l [] hx)

theorem techStackStr_dup (l : List String) (x : String) (hx : x ∈ l) :
    techStackStr (l ++ [x]) = techStackStr l := by
  rw [techStackStr, techStackStr, techLabels_dup l x hx]

theorem orgItems_dup (l : List String) (x : String) (hx : x ∈ l) :
    orgItems (l ++ [x]) = orgItems l := by
  simp only [orgItems, hasCodeOfConductB_dup l x hx, hasContributingB_dup l x hx,
    hasLicenseB_dup l x hx, hasSecurityPolicyB_dup l x hx, hasIssueTemplatesB_dup l x hx,
    hasPrTemplatesB_dup l x hx, hasChangelogB_dup l x hx, hasDocsB_dup l x hx,
    hasReadmeB_dup l x hx]

theorem codingItems_dup (l : List String) (x : String) (hx : x ∈ l) :
    codingItems (l ++ [x]) = codingItems l := by
  simp only [codingItems, hasTestsB_dup l x hx, hasLintB_dup l x hx,
    hasPrecommitB_dup l x hx, hasCiB_dup l x hx]

theorem automationItems_dup (l : List String) (x : String) (hx : x ∈ l) :
    automationItems (l ++ [x]) = automationItems l := by
  simp only [automationItems, hasActionsB_dup l x hx, hasCiB_dup l x hx,
    hasPrecommitB_dup l x hx, hasDockerfileB_dup l x hx, hasDockerComposeB_dup l x hx]

theorem detectLower_append (L : List String) (p : String) :
    detectLower (L ++ [p]) = detectLower L ++ [lowerStr p] := by
  simp [detectLower]

theorem toNat_ofNatAux (n : Nat) (h : n.isValidChar) : (Char.ofNatAux n h).toNat = n := rfl

/-- Char.toLower never produces a character in the ASCII upper-case range. -/
theorem charToLower_not_upper (c : Char) :
    ¬(65 ≤ (Char.toLower c).toNat ∧ (Char.toLower c).toNat ≤ 90) := by
  simp only [Char.toLower]
  split
  · rename_i hcond
    rw [Char.ofNat, dif_pos (Or.inl (by omega : c.toNat + 32 < 55296)), toNat_ofNatAux]
    omega
  · rename_i hcond
    intro h
    exact hcond ⟨h.1, h.2⟩

/-- The upper-case needle ".github/ISSUE_TEMPLATE" can never occur inside
a lower-cased string: its character 'I' is not in the range of
Char.toLower. -/
theorem strContains_lower_issue (s : String) :
    strContains (lowerStr s) ".github/ISSUE_TEMPLATE" = false := by
  rw [strContains]
  cases hb : (lowerStr s).data.tails.any (fun u => ".github/ISSUE_TEMPLATE".data.isPrefixOf u)
  · rfl
  · exfalso
    rcases List.any_eq_true.mp hb with ⟨t, ht, hp⟩
    rw [List.mem_tails] at ht
    have hp' : ".github/ISSUE_TEMPLATE".data <+: t := List.isPrefixOf_iff_prefix.mp hp
    have hI : 'I' ∈ t := hp'.subset (by decide)
    have hI2 : 'I' ∈ (lowerStr s).data := ht.subset hI
    have hI3 : 'I' ∈ s.data.map Char.toLower := hI2
    rcases List.mem_map.mp hI3 with ⟨c, _, hlc⟩
    have hup := charToLower_not_upper c
    rw [hlc] at hup
    exact hup (by decide)

/- ============================================================
   Claim theorems
   ============================================================ -/

/-- C1: classifying the empty path sequence yields all 16 boolean
indicators false, empty detected_test_framework / detected_ci /
tech_stack, all three scores 0.0 (0 tenths), total_paths 0 and an empty
sample. -/
theorem claim_C1_empty_input :
    detect_signals [] =
      { has_tests := false, has_github_actions := false, has_ci_config := false,
        has_lint_config := false, has_precommit := false, has_dockerfile := false,
        has_docker_compose := false, has_makefile := false, has_code_of_conduct := false,
        has_contributing := false, has_license := false, has_security_policy := false,
        has_issue_templates := false, has_pr_templates := false, has_changelog := false,
        has_docs := false, detected_test_framework := "", detected_ci := "",
        organization_score_tenths := 0, coding_standards_score_tenths := 0,
        automation_score_tenths := 0, tech_stack := "", total_paths := 0,
        sample_paths := [] } := by
  decide

/-- C2: each composite score equals round(100*k/n, 1) — here in exact
tenths, roundTenths k n — where n is the fixed denominator of its
category (9, 4, 5) and k the number of true items of that category's
indicator list; consequently each score lies in [0, 100] (0 to 1000
tenths). -/
theorem claim_C2_score_formula (paths : List String) :
    ((detect_signals paths).organization_score_tenths
        = roundTenths (countTrue (orgItems (detectLower paths))) 9 ∧
      countTrue (orgItems (detectLower paths)) ≤ 9 ∧
      (detect_signals paths).organization_score_tenths ≤ 1000) ∧
    ((detect_signals paths).coding_standards_score_tenths
        = roundTenths (countTrue (codingItems (detectLower paths))) 4 ∧
      countTrue (codingItems (detectLower paths)) ≤ 4 ∧
      (detect_signals paths).coding_standards_score_tenths ≤ 1000) ∧
    ((detect_signals paths).automation_score_tenths
        = roundTenths (countTrue (automationItems (detectLower paths))) 5 ∧
      countTrue (automationItems (detectLower paths)) ≤ 5 ∧
      (detect_signals paths).automation_score_tenths ≤ 1000) := by
  have h9 : ∀ k, k ≤ 9 → roundTenths k 9 ≤ 1000 := by
    have hb : ∀ k < 10, roundTenths k 9 ≤ 1000 := by decide
    intro k hk; exact hb k (by omega)
  have h4 : ∀ k, k ≤ 4 → roundTenths k 4 ≤ 1000 := by
    have hb : ∀ k < 5, roundTenths k 4 ≤ 1000 := by decide
    intro k hk; exact hb k (by omega)
  have h5 : ∀ k, k ≤ 5 → roundTenths k 5 ≤ 1000 := by
    have hb : ∀ k < 6, roundTenths k 5 ≤ 1000 := by decide
    intro k hk; exact hb k (by omega)
  have ho : countTrue (orgItems (detectLower paths)) ≤ 9 := by
    have := List.count_le_length (a := true) (l := orgItems (detectLower paths))
    simpa [orgItems, countTrue] using this
  have hc : countTrue (codingItems (detectLower paths)) ≤ 4 := by
    have := List.count_le_length (a := true) (l := codingItems (detectLower paths))
    simpa [codingItems, countTrue] using this
  have ha : countTrue (automationItems (detectLower paths)) ≤ 5 := by
    have := List.count_le_length (a := true) (l := automationItems (detectLower paths))
    simpa [automationItems, countTrue] using this
  refine ⟨⟨rfl, ho, ?_⟩, ⟨rfl, hc, ?_⟩, ⟨rfl, ha, ?_⟩⟩
  · exact h9 _ ho
  · exact h4 _ hc
  · exact h5 _ ha

/-- C3 counterexample: "frontend/.eslintrc.js" is not an exact member of
the lint filename set, yet it sets has_lint_config — the claim's
"exactly equal" reading is false on the code. -/
theorem claim_C3_counterexample :
    (detect_signals ["frontend/.eslintrc.js"]).has_lint_config = true ∧
    lowerStr "frontend/.eslintrc.js" ∉ lintFiles := by
  constructor
  · decide
  · decide

/-- C3 amended: has_lint_config is true iff some path, lower-cased, is
exactly a member of the fixed lint filename set OR ends with
".eslintrc.js" OR ends with ".prettierrc.json". -/
theorem claim_C3_amended_lint_rule (paths : List String) :
    (detect_signals paths).has_lint_config = true ↔ lintSpecRule paths := by
  show hasLintB (detectLower paths) = true ↔ lintSpecRule paths
  rw [hasLintB, detectLower, List.any_map, List.any_eq_true]
  refine exists_congr (fun p => and_congr_right (fun _ => ?_))
  simp [lintSpecRule, or_assoc]

/-- C4 counterexample: the nested path "vendor/.github/ISSUE_TEMPLATE/bug.md"
does contain the substring ".github/ISSUE_TEMPLATE", yet
has_issue_templates stays false — the substring branch compares an
upper-case literal against the lower-cased path. -/
theorem claim_C4_counterexample :
    (detect_signals ["vendor/.github/ISSUE_TEMPLATE/bug.md"]).has_issue_templates = false ∧
    strContains "vendor/.github/ISSUE_TEMPLATE/bug.md" ".github/ISSUE_TEMPLATE" = true := by
  constructor
  · decide
  · decide

/-- C4 amended: has_issue_templates is true iff some path, lower-cased,
starts with ".github/issue_template"; the ".github/ISSUE_TEMPLATE"
substring alternative can never fire on lower-cased input. -/
theorem claim_C4_amended_issue_templates (paths : List String) :
    (detect_signals paths).has_issue_templates = true ↔ issueTemplatesSpecRule paths := by
  show hasIssueTemplatesB (detectLower paths) = true ↔ issueTemplatesSpecRule paths
  rw [hasIssueTemplatesB, detectLower, List.any_map, List.any_eq_true]
  refine exists_congr (fun p => and_congr_right (fun _ => ?_))
  simp [strContains_lower_issue, issueTemplatesSpecRule]

/-- C5: appending a duplicate of a path already in the list changes no
boolean indicator, categorical field, score or tech stack, but raises
total_paths by one. -/
theorem claim_C5_duplicate_path (L : List String) (p : String) (hp : p ∈ L) :
    sameDetection (detect_signals (L ++ [p])) (detect_signals L) ∧
    (detect_signals (L ++ [p])).total_paths = (detect_signals L).total_paths + 1 := by
  have hx : lowerStr p ∈ detectLower L := List.mem_map_of_mem _ hp
  constructor
  · unfold sameDetection
    simp only [detect_signals, detectLower_append]
    refine ⟨hasTestsB_dup _ _ hx, hasActionsB_dup _ _ hx, hasCiB_dup _ _ hx,
      hasLintB_dup _ _ hx, hasPrecommitB_dup _ _ hx, hasDockerfileB_dup _ _ hx,
      hasDockerComposeB_dup _ _ hx, hasMakefileB_dup _ _ hx,
      hasCodeOfConductB_dup _ _ hx, hasContributingB_dup _ _ hx,
      hasLicenseB_dup _ _ hx, hasSecurityPolicyB_dup _ _ hx,
      hasIssueTemplatesB_dup _ _ hx, hasPrTemplatesB_dup _ _ hx,
      hasChangelogB_dup _ _ hx, hasDocsB_dup _ _ hx,
      detectedTestFramework_dup _ _ hx, detectedCi_dup _ _ hx, ?_, ?_, ?_,
      techStackStr_dup _ _ hx⟩
    · rw [orgItems_dup _ _ hx]
    · rw [codingItems_dup _ _ hx]
    · rw [automationItems_dup _ _ hx]
  · simp [detect_signals]

/-- Witness for C5 at a concrete duplicate. -/
theorem claim_C5_witness :
    sameDetection (detect_signals (["readme.md", "tests/a.py"] ++ ["readme.md"]))
        (detect_signals ["readme.md", "tests/a.py"]) ∧
    (detect_signals (["readme.md", "tests/a.py"] ++ ["readme.md"])).total_paths
      = (detect_signals ["readme.md", "tests/a.py"]).total_paths + 1 :=
  claim_C5_duplicate_path ["readme.md", "tests/a.py"] "readme.md" (by decide)

/-- C10: for input ["travis.yml"], detected_ci is "travis" while
has_ci_config is false — a non-empty detected_ci does not imply the CI
boolean. -/
theorem claim_C10_travis_ci :
    (detect_signals ["travis.yml"]).detected_ci = "travis" ∧
    (detect_signals ["travis.yml"]).has_ci_config = false := by
  constructor
  · decide
  · decide

/-- A key-unique row list has at most one row per key. -/
theorem repoKeyUniq_countP (rows : List RepoRow) (h : repoKeyUniq rows = true)
    (u rp : String) : rows.countP (fun o => o.user == u && o.repo == rp) ≤ 1 := by
  induction rows with
  | nil => simp
  | cons o rest ih =>
    rw [repoKeyUniq, Bool.and_eq_true, Bool.not_eq_true'] at h
    rw [List.countP_cons]
    by_cases hko : (o.user == u && o.repo == rp) = true
    · have hz : rest.countP (fun o' => o'.user == u && o'.repo == rp) = 0 := by
        rw [List.countP_eq_zero]
        intro o2 h2 hpo2
        have hnot := List.any_eq_false.mp h.1 o2 h2
        simp only [beq_iff_eq, Bool.and_eq_true] at hko hpo2 hnot
        exact hnot ⟨by rw [hpo2.1, hko.1], by rw [hpo2.2, hko.2]⟩
      simp [hz, hko]
    · have hrest := ih h.2
      have hko' : (o.user == u && o.repo == rp) = false := Bool.not_eq_true _ |>.mp hko
      simpa [hko'] using hrest

/-- Replacing every key-matching row and filtering for the key leaves no
residue when the key count is zero. -/
theorem filter_map_replace_zero (r : RepoRow) :
    ∀ t : List RepoRow, t.countP (fun o => o.user == r.user && o.repo == r.repo) = 0 →
      ((t.map (fun o => if o.user == r.user && o.repo == r.repo then r else o)).filter
        (fun o => o.user == r.user && o.repo == r.repo)) = [] := by
  intro t
  induction t with
  | nil => intro _; rfl
  | cons a t ih =>
    intro hz
    rw [List.countP_cons] at hz
    have ha : (a.user == r.user && a.repo == r.repo) = false := by
      by_cases hc : (a.user == r.user && a.repo == r.repo) = true
      · simp [hc] at hz
      · exact Bool.not_eq_true _ |>.mp hc
    rw [List.map_cons, if_neg (by simp [ha]), List.filter_cons, if_neg (by simp [ha])]
    exact ih (by rw [ha] at hz; simpa using hz)

/-- Filtering for the key after replacing every key-matching row by the
new record yields exactly the new record, when the key occurs and occurs
at most once. -/
theorem filter_map_replace (r : RepoRow) :
    ∀ rows : List RepoRow,
      rows.any (fun o => o.user == r.user && o.repo == r.repo) = true →
      rows.countP (fun o => o.user == r.user && o.repo == r.repo) ≤ 1 →
      ((rows.map (fun o => if o.user == r.user && o.repo == r.repo then r else o)).filter
        (fun o => o.user == r.user && o.repo == r.repo)) = [r] := by
  intro rows
  induction rows with
  | nil => intro hany _; simp at hany
  | cons a t ih =>
    intro hany hcnt
    rw [List.countP_cons] at hcnt
    by_cases ha : (a.user == r.user && a.repo == r.repo) = true
    · rw [List.map_cons, if_pos ha, List.filter_cons, if_pos (by simp)]
      simp only [ha, if_pos] at hcnt
      have hz : t.countP (fun o => o.user == r.user && o.repo == r.repo) = 0 := by omega
      rw [filter_map_replace_zero r t hz]
    · have ha' : (a.user == r.user && a.repo == r.repo) = false :=
        Bool.not_eq_true _ |>.mp ha
      rw [List.map_cons, if_neg (by simp [ha']), List.filter_cons, if_neg (by simp [ha'])]
      have hany' : t.any (fun o => o.user == r.user && o.repo == r.repo) = true := by
        rw [List.any_cons, ha'] at hany
        simpa using hany
      exact ih hany' (by rw [ha'] at hcnt; omega)

/-- After upserting r, the rows holding r's key are exactly [r], provided
the key held at most one row before. -/
theorem upsert_filter_key (rows : List RepoRow) (r : RepoRow)
    (h : countRepoKey rows r.user r.repo ≤ 1) :
    (upsert_repository rows r).filter (fun o => o.user == r.user && o.repo == r.repo)
      = [r] := by
  rw [upsert_repository]
  split
  · rename_i hany
    exact filter_map_replace r rows hany h
  · rename_i hany
    rw [List.filter_append]
    have h0 : rows.filter (fun o => o.user == r.user && o.repo == r.repo) = [] := by
      rw [List.filter_eq_nil_iff]
      intro o ho hp
      rw [Bool.not_eq_true] at hany
      have := List.any_eq_false.mp hany o ho
      exact this hp
    rw [h0]
    simp

/-- Upserting preserves the at-most-one-row-per-key bound for the
upserted key. -/
theorem countP_upsert_le (rows : List RepoRow) (r : RepoRow)
    (h : countRepoKey rows r.user r.repo ≤ 1) :
    countRepoKey (upsert_repository rows r) r.user r.repo ≤ 1 := by
  rw [countRepoKey] at h ⊢
  rw [upsert_repository]
  split
  · have hmap : ∀ t : List RepoRow,
        (t.map (fun o => if o.user == r.user && o.repo == r.repo then r else o)).countP
          (fun o => o.user == r.user && o.repo == r.repo)
        = t.countP (fun o => o.user == r.user && o.repo == r.repo) := by
      intro t
      induction t with
      | nil => rfl
      | cons a t iht =>
        rw [List.map_cons, List.countP_cons, List.countP_cons, iht]
        by_cases hc : (a.user == r.user && a.repo == r.repo) = true
        · rw [if_pos hc, hc]
          simp
        · rw [if_neg hc]
    rw [hmap]
    exact h
  · rename_i hany
    rw [Bool.not_eq_true] at hany
    rw [List.countP_append]
    have h0 : rows.countP (fun o => o.user == r.user && o.repo == r.repo) = 0 := by
      rw [List.countP_eq_zero]
      intro o ho hp
      exact (List.any_eq_false.mp hany o ho) hp
    rw [h0]
    simp

/-- C6: upserting R1 then R2 for the same (user, repo) key into a
key-unique store leaves exactly one row for that key, and that row is R2
in every column (last-write-wins, no merge with R1). -/
theorem claim_C6_upsert_last_write_wins (rows : List RepoRow) (R1 R2 : RepoRow)
    (huniq : repoKeyUniq rows = true) (hu : R1.user = R2.user) (hr : R1.repo = R2.repo) :
    (upsert_repository (upsert_repository rows R1) R2).filter
      (fun o => o.user == R2.user && o.repo == R2.repo) = [R2] := by
  apply upsert_filter_key
  rw [← hu, ← hr]
  apply countP_upsert_le
  exact repoKeyUniq_countP rows huniq R1.user R1.repo

/-- Witness for C6: two concrete records with the same key and different
values, upserted into the empty store. -/
theorem claim_C6_witness :
    (upsert_repository (upsert_repository [] exampleRepoV1) exampleRepoV2).filter
      (fun o => o.user == exampleRepoV2.user && o.repo == exampleRepoV2.repo)
      = [exampleRepoV2] :=
  claim_C6_upsert_last_write_wins [] exampleRepoV1 exampleRepoV2 (by decide) rfl rfl

/-- C7: the code's actual per-run user-status writes.  ingest() performs
no status write at all, so a run that raises no exception leaves only the
route's initial "pending" value; only the exception path of
run_ingestion_job ever writes "failed".  No run ever writes
"in_progress" or "completed". -/
theorem claim_C7_no_status_transitions :
    ingestEndpointStatusTrajectory false = ["pending"] ∧
    ingestEndpointStatusTrajectory true = ["pending", "failed"] ∧
    (∀ b, "in_progress" ∉ ingestEndpointStatusTrajectory b) ∧
    (∀ b, "completed" ∉ ingestEndpointStatusTrajectory b) := by
  refine ⟨rfl, rfl, ?_, ?_⟩ <;> intro b <;> cases b <;> decide

/-- C8 counterexample: query_repos_by_signals returns a plain (possibly
empty) row list, never an error object.  For a never-ingested user it
returns [], exactly what it returns for an ingested user with zero
matching rows — the two cases are indistinguishable. -/
theorem claim_C8_counterexample :
    query_repos_by_signals emptyStore "ghost" none none none none none none none 20 = [] ∧
    query_repos_by_signals storeAliceNoTests "alice" none none (some true) none none
      none none 20 = [] ∧
    query_repos_by_signals storeAliceNoTests "ghost" none none (some true) none none
      none none 20 = [] := by
  refine ⟨rfl, ?_, ?_⟩ <;> decide

/-- C8 amended: get_repo_overview (the point-lookup tool) does return an
explicit error object when the requested repository is absent from the
store; the list-returning query tools instead return an empty list. -/
theorem claim_C8_amended_not_found (store : Store) (user repo : String)
    (h : findRepo store.repos user repo = none) :
    get_repo_overview store user repo =
      ToolResult.err ("Repo not found in MCP store: " ++ user ++ "/" ++ repo ++
        ". Run ingestion first.") := by
  rw [get_repo_overview, h]

/-- Witness for C8 at a concrete absent repository. -/
theorem claim_C8_witness :
    get_repo_overview emptyStore "alice" "proj" =
      ToolResult.err ("Repo not found in MCP store: " ++ "alice" ++ "/" ++ "proj" ++
        ". Run ingestion first.") :=
  claim_C8_amended_not_found emptyStore "alice" "proj" rfl

/-- C9: all three INSERT statements of the orchestrator name a key column
"user", which none of the three tables of SCHEMA_SQL defines (each
defines "user_name" instead); SQLite rejects each such INSERT with a
no-such-column error before writing any row. -/
theorem claim_C9_schema_mismatch :
    ("user" ∈ reposInsertCols ∧ "user" ∉ reposTableCols ∧ "user_name" ∈ reposTableCols) ∧
    ("user" ∈ repoSignalsInsertCols ∧ "user" ∉ repoSignalsTableCols ∧
      "user_name" ∈ repoSignalsTableCols) ∧
    ("user" ∈ commitsInsertCols ∧ "user" ∉ commitsTableCols ∧
      "user_name" ∈ commitsTableCols) ∧
    checkInsertCols reposTableCols reposInsertCols
      = Except.error "table has no column named user" ∧
    checkInsertCols repoSignalsTableCols repoSignalsInsertCols
      = Except.error "table has no column named user" ∧
    checkInsertCols commitsTableCols commitsInsertCols
      = Except.error "table has no column named user" := by
  refine ⟨⟨by decide, by decide, by decide⟩, ⟨by decide, by decide, by decide⟩,
    ⟨by decide, by decide, by decide⟩, rfl, rfl, rfl⟩
